import Mathlib

/-!
Shallow embedding of the arbitrage-engine server (src/server.js) for checking
the natural-language specification. Monetary amounts (ETH, USD) are modelled as
rationals; timestamps as naturals. Network interaction is modelled by an
explicit oracle record describing the responses of the remote endpoints; the
asynchronous JavaScript code is embedded as explicit state passing.
-/

namespace Server

/-! ### Configuration constants (src/server.js lines 24-37) -/

def TREASURY_WALLET_ADDRESS : String := "0x0fF31D4cdCE8B3f7929c04EbD4cd852608DC09f4"

def COINBASE_WALLET : String := "0x4024Fd78E2AD5532FBF3ec2B3eC83870FAe45fC7"

def ETH_PRICE : ℚ := 3450

/-- MIN_GAS_ETH = 0.01 (line 28): the minimum balance threshold for a tick. -/
def MIN_GAS_ETH : ℚ := 1 / 100

/-- AGGREGATE_PROFIT_ETH = 1.0 (line 32): the fixed per-tick transfer amount. -/
def AGGREGATE_PROFIT_ETH : ℚ := 1

def EXECUTION_RATE_MS : ℕ := 1000

def STRATEGIES_PER_EXECUTION : ℕ := 450

def FLASH_LOAN_AMOUNT_ETH : ℚ := 1000

def AGGREGATE_PROFIT_USD : ℚ := AGGREGATE_PROFIT_ETH * ETH_PRICE

/-- The quorum argument passed to the fallback provider constructor
(line 82: new ethers.FallbackProvider(providers, 1)). -/
def FALLBACK_QUORUM : ℕ := 1

/-! ### Data model -/

/-- Connection state (the monitorStatus global, line 70). -/
inductive MonitorStatus
  | initializing
  | connecting
  | connected
  | disconnected
deriving DecidableEq, Repr

/-- One entry of the STRATEGIES array (lines 61-65). -/
structure Strategy where
  id : ℕ
  path : String
  profitCheck : Bool
deriving DecidableEq, Repr

/-- STRATEGIES (lines 61-65): built ONCE at module load; the argument rand
models the per-index draw of the expression comparing Math.random() with 0.05
evaluated at startup. -/
def mkStrategies (rand : ℕ → Bool) : List Strategy :=
  (List.range 450).map fun i =>
    { id := i + 1
      path := "DEX_A/Token_" ++ toString i ++ " -> DEX_B/Token_" ++ toString i
      profitCheck := rand i }

structure FeeData where
  maxFeePerGas : ℚ
  maxPriorityFeePerGas : ℚ
deriving DecidableEq, Repr

/-- Oracle describing the responses of the remote network for one round of
calls: none models a rejected or failing call (a thrown error in the source). -/
structure Network where
  connectOk : Bool
  balanceResult : Option ℚ
  feeResult : Option FeeData
  sendResult : Option ℕ
  waitResult : Option ℕ
deriving DecidableEq, Repr

/-- Process configuration: privateKeyAddress is the address derived from
TREASURY_PRIVATE_KEY when that environment variable is set (line 18). -/
structure Config where
  privateKeyAddress : Option String
deriving DecidableEq, Repr

/-- The mutable module globals (lines 67-72). lastExecutionResult holds the
value assigned in the finally block (lines 237-240): the source stores an
object nesting the PREVIOUS value of the global under the result field next to
a fresh timestamp, so every reachable value is exactly a chain of timestamps;
we represent that chain as the list of timestamps, most recent first, with the
empty list standing for the initial null. No field of a tick outcome is ever
stored in it. -/
structure EngineState where
  provider : Bool
  signer : Option String
  lastExecutionResult : List ℕ
  monitorStatus : MonitorStatus
  totalStrategiesExecuted : ℕ
  totalRealizedToTreasury : ℚ
  strategies : List Strategy
deriving DecidableEq, Repr

/-! ### initProvider (lines 78-105) -/

/-- initProvider: sets monitorStatus to connecting, probes the pool (modelled
by net.connectOk, covering the getBlockNumber call); on success sets provider
and monitorStatus connected and, when a private key is configured, the signer;
on failure clears provider and signer and sets monitorStatus disconnected. -/
def initProvider (cfg : Config) (net : Network) (s : EngineState) :
    Bool × EngineState :=
  let s1 := { s with monitorStatus := MonitorStatus.connecting }
  if net.connectOk then
    let s2 := { s1 with provider := true, monitorStatus := MonitorStatus.connected }
    match cfg.privateKeyAddress with
    | some addr => (true, { s2 with signer := some addr })
    | none => (true, s2)
  else
    (false, { s1 with provider := false, signer := none,
                      monitorStatus := MonitorStatus.disconnected })

/-! ### getTreasuryBalance (lines 111-120) -/

/-- getTreasuryBalance: re-runs initProvider when provider or signer is unset;
returns 0 when no signer is available; returns 0 when the balance read throws
(net.balanceResult = none), because of the surrounding try/catch. -/
def getTreasuryBalance (cfg : Config) (net : Network) (s : EngineState) :
    ℚ × EngineState :=
  let s1 := if !s.provider || s.signer.isNone then (initProvider cfg net s).2 else s
  match s1.signer with
  | none => (0, s1)
  | some _ =>
    match net.balanceResult with
    | none => (0, s1)
    | some bal => (bal, s1)

/-! ### transferEth (lines 126-149) -/

/-- One remote call issued by transferEth, in issue order. The confirmation
wait records the timeout argument of the call site: the source calls tx.wait()
with no argument, i.e. with no bound. -/
inductive NetCall
  | getBalance
  | getFeeData
  | sendTransaction (recipient : String) (valueETH : ℚ)
  | waitReceipt (timeout : Option ℕ)
deriving DecidableEq, Repr

inductive TransferError
  | signingUnavailable
  | insufficientFunds
  | providerFailure
deriving DecidableEq, Repr

structure TxOutcome where
  txHash : ℕ
  blockNumber : ℕ
deriving DecidableEq, Repr

/-- transferEth: throws when no signer is set; reads the balance; throws
insufficientFunds when balance < value BEFORE fetching fees, signing or
submitting; otherwise fetches fee data, signs and submits, and awaits the
receipt with tx.wait() (no timeout argument). The second component is the
trace of remote calls actually issued, in order. -/
def transferEth (signer : Option String) (net : Network) (amountETH : ℚ)
    (recipient : String) : Except TransferError TxOutcome × List NetCall :=
  match signer with
  | none => (Except.error TransferError.signingUnavailable, [])
  | some _ =>
    match net.balanceResult with
    | none => (Except.error TransferError.providerFailure, [NetCall.getBalance])
    | some balance =>
      if balance < amountETH then
        (Except.error TransferError.insufficientFunds, [NetCall.getBalance])
      else
        match net.feeResult with
        | none => (Except.error TransferError.providerFailure,
                   [NetCall.getBalance, NetCall.getFeeData])
        | some _ =>
          match net.sendResult with
          | none => (Except.error TransferError.providerFailure,
                     [NetCall.getBalance, NetCall.getFeeData,
                      NetCall.sendTransaction recipient amountETH])
          | some h =>
            match net.waitResult with
            | none => (Except.error TransferError.providerFailure,
                       [NetCall.getBalance, NetCall.getFeeData,
                        NetCall.sendTransaction recipient amountETH,
                        NetCall.waitReceipt none])
            | some bn =>
              (Except.ok { txHash := h, blockNumber := bn },
               [NetCall.getBalance, NetCall.getFeeData,
                NetCall.sendTransaction recipient amountETH,
                NetCall.waitReceipt none])

/-! ### executeStrategyTrade (lines 155-242) -/

/-- The structured result returned to the caller of one tick. -/
inductive Outcome
  | noSigner
  | needsFunding (treasuryBalance minRequired : ℚ)
  | noProfitablePaths
  | tradeSuccess (strategiesChecked profitablePaths : ℕ) (profitUSD profitETH : ℚ)
      (depositRecipient : String) (txHash blockNumber : ℕ)
  | tradeFailed (error : TransferError) (profitETH : ℚ)
deriving DecidableEq, Repr

/-- Result of one settlement tick: the outcome returned to the caller, the
engine state afterwards, the arguments of every transferEth invocation made by
the tick, and the profitCheck booleans read from the STRATEGIES global. -/
structure TickResult where
  outcome : Outcome
  state : EngineState
  transferCalls : List (ℚ × String)
  signalsRead : List Bool
deriving DecidableEq, Repr

/-- executeStrategyTrade: reads the treasury balance (which may re-run
initProvider); aborts when no signer is set; aborts with the needs-funding
payload when balance < MIN_GAS_ETH; otherwise scans the first
STRATEGIES_PER_EXECUTION entries of the STRATEGIES global, incrementing
totalStrategiesExecuted once per entry; aborts when no entry has a true
profitCheck; otherwise calls transferEth once for AGGREGATE_PROFIT_ETH with
the signer address as recipient, adds AGGREGATE_PROFIT_USD to
totalRealizedToTreasury on success, and in the finally block overwrites
lastExecutionResult with the object nesting its previous value next to the
current timestamp (modelled by consing now). The try/finally only encloses the
transfer step, so the three early aborts do not touch lastExecutionResult. -/
def executeStrategyTrade (cfg : Config) (net : Network) (now : ℕ)
    (s : EngineState) : TickResult :=
  let p := getTreasuryBalance cfg net s
  let balance := p.1
  let s0 := p.2
  match s0.signer with
  | none =>
    { outcome := Outcome.noSigner, state := s0, transferCalls := [], signalsRead := [] }
  | some addr =>
    if balance < MIN_GAS_ETH then
      { outcome := Outcome.needsFunding balance MIN_GAS_ETH, state := s0,
        transferCalls := [], signalsRead := [] }
    else
      let batch := (s0.strategies.take STRATEGIES_PER_EXECUTION).map Strategy.profitCheck
      let profitableStrategies := batch.count true
      let s1 := { s0 with totalStrategiesExecuted :=
                    s0.totalStrategiesExecuted + STRATEGIES_PER_EXECUTION }
      if profitableStrategies = 0 then
        { outcome := Outcome.noProfitablePaths, state := s1,
          transferCalls := [], signalsRead := batch }
      else
        match (transferEth s1.signer net AGGREGATE_PROFIT_ETH addr).1 with
        | Except.ok txo =>
          { outcome := Outcome.tradeSuccess STRATEGIES_PER_EXECUTION
              profitableStrategies AGGREGATE_PROFIT_USD AGGREGATE_PROFIT_ETH
              addr txo.txHash txo.blockNumber
            state := { s1 with
              totalRealizedToTreasury := s1.totalRealizedToTreasury + AGGREGATE_PROFIT_USD
              lastExecutionResult := now :: s1.lastExecutionResult }
            transferCalls := [(AGGREGATE_PROFIT_ETH, addr)]
            signalsRead := batch }
        | Except.error e =>
          { outcome := Outcome.tradeFailed e AGGREGATE_PROFIT_ETH
            state := { s1 with lastExecutionResult := now :: s1.lastExecutionResult }
            transferCalls := [(AGGREGATE_PROFIT_ETH, addr)]
            signalsRead := batch }

/-! ### Scheduler (startAutoTrader, lines 248-253, and the manual trigger
endpoint, lines 295-303) -/

/-- Events driving the settlement count: a timer firing (setInterval installs
executeStrategyTrade itself as the handler), a manual trigger (the POST
endpoint calls executeStrategyTrade directly), and the asynchronous completion
of an earlier settlement. -/
inductive SchedEvent
  | timerTick
  | manualTrigger
  | settleDone
deriving DecidableEq, Repr

/-- In-flight settlement count semantics of the scheduler: neither the timer
handler nor the manual endpoint consults any guard before invoking
executeStrategyTrade, so each firing begins one settlement unconditionally;
settleDone marks the asynchronous completion of one earlier settlement. -/
def schedStep (inFlight : ℕ) : SchedEvent → ℕ
  | SchedEvent.timerTick => inFlight + 1
  | SchedEvent.manualTrigger => inFlight + 1
  | SchedEvent.settleDone => inFlight - 1

/-- Number of settlements in flight after a sequence of scheduler events. -/
def inFlightAfter (events : List SchedEvent) : ℕ :=
  events.foldl schedStep 0

/-! ### Status endpoint (lines 269-289) -/

structure StatusSnapshot where
  status : MonitorStatus
  blockchainConnection : Bool
  treasuryWallet : String
  treasuryBalance : ℚ
  treasuryBalanceUSD : ℚ
  minGasRequired : ℚ
  flashLoanCapital : ℚ
  totalRealizedToTreasuryUSD : ℚ
  totalStrategiesExecuted : ℕ
  lastExecutionResult : List ℕ
  timestamp : ℕ
deriving DecidableEq, Repr

/-- The GET status handler: calls getTreasuryBalance (which may re-run
initProvider and so mutate the globals) and then reads the globals into the
response object. -/
def statusRead (cfg : Config) (net : Network) (now : ℕ) (s : EngineState) :
    StatusSnapshot × EngineState :=
  let p := getTreasuryBalance cfg net s
  let balance := p.1
  let s1 := p.2
  ({ status := s1.monitorStatus
     blockchainConnection := s1.provider
     treasuryWallet := match s1.signer with
       | some a => a
       | none => TREASURY_WALLET_ADDRESS
     treasuryBalance := balance
     treasuryBalanceUSD := balance * ETH_PRICE
     minGasRequired := MIN_GAS_ETH
     flashLoanCapital := FLASH_LOAN_AMOUNT_ETH
     totalRealizedToTreasuryUSD := s1.totalRealizedToTreasury
     totalStrategiesExecuted := s1.totalStrategiesExecuted
     lastExecutionResult := s1.lastExecutionResult
     timestamp := now }, s1)

/-! ### Spec-modelled collaborators -/

/-- Modelled from the spec: the quorum aggregation of the fallback provider
wrapper (the library class instantiated on line 82, whose body is not part of
src/): fan out, collect responses, and return a value only when at least
quorum endpoints reported it; none models the NoQuorum failure. -/
def quorumAggregate (quorum : ℕ) (responses : List ℤ) : Option ℤ :=
  responses.find? fun v => decide (quorum ≤ responses.count v)

/-- Modelled from the spec: produceBatch(size) of the Oracle Stub interface —
a fresh batch of booleans drawn independently for each tick from the tick-wise
randomness stream. -/
def produceBatchSpec (oracle : ℕ → ℕ → Bool) (tick : ℕ) : List Bool :=
  (List.range STRATEGIES_PER_EXECUTION).map (oracle tick)

/-! ### Concrete fixtures -/

/-- A startup draw in which every strategy passes its profit check. -/
def stratAllTrue : List Strategy := mkStrategies fun _ => true

def netGood : Network :=
  { connectOk := true, balanceResult := some 5, feeResult := some ⟨3, 1⟩,
    sendResult := some 77, waitResult := some 123 }

def netSendFail : Network := { netGood with sendResult := none }

def netReadFail : Network := { netGood with balanceResult := none }

def cfgNoKey : Config := { privateKeyAddress := none }

def cfgWithKey : Config := { privateKeyAddress := some TREASURY_WALLET_ADDRESS }

/-- A state as after a successful startup with a configured key. -/
def sReady : EngineState :=
  { provider := true, signer := some TREASURY_WALLET_ADDRESS,
    lastExecutionResult := [], monitorStatus := MonitorStatus.connected,
    totalStrategiesExecuted := 0, totalRealizedToTreasury := 0,
    strategies := stratAllTrue }

/-- The state at module load, before initProvider has ever run. -/
def sFresh : EngineState :=
  { provider := false, signer := none, lastExecutionResult := [],
    monitorStatus := MonitorStatus.initializing, totalStrategiesExecuted := 0,
    totalRealizedToTreasury := 0, strategies := stratAllTrue }

end Server

namespace Server

/-! ### C1: single-flight discipline -/

/-- Claim C1 (counterexample): it is false that at most one settlement is in
flight at any instant. The tick handler installed by startAutoTrader is
executeStrategyTrade itself, with no guard, so two timer firings while the
first settlement is still unfinished leave two settlements in flight. -/
theorem scheduler_single_flight_refuted :
    ¬ (∀ es : List SchedEvent, inFlightAfter es ≤ 1) := by
  intro h
  have h2 := h [SchedEvent.timerTick, SchedEvent.timerTick]
  revert h2
  decide

/-- Claim C1 (amended): a firing tick — from the timer or from the manual
trigger — always starts a new settlement regardless of how many are already in
flight; in particular two overlapping timer firings yield two concurrent
settlements. The code has no single-flight guard. -/
theorem scheduler_tick_always_starts (n : ℕ) :
    schedStep n SchedEvent.timerTick = n + 1 ∧
    schedStep n SchedEvent.manualTrigger = n + 1 ∧
    inFlightAfter [SchedEvent.timerTick, SchedEvent.timerTick] = 2 :=
  ⟨rfl, rfl, rfl⟩

/-! ### C2: quorum semantics of balance reads -/

/-- Claim C2: the quorum aggregation returns a value only when at least Q
endpoint responses agree on it, fails (none, the NoQuorum condition) when no
value reaches Q-endpoint agreement, returns 10 for Q=2 on responses
[10, 10, 7], fails for Q=2 on responses [10, 7, 3], and never trusts a value
reported by a single endpoint when Q exceeds 1. -/
theorem quorum_balance_read_semantics :
    (∀ (q : ℕ) (rs : List ℤ) (v : ℤ),
        quorumAggregate q rs = some v → q ≤ rs.count v) ∧
    (∀ (q : ℕ) (rs : List ℤ),
        (∀ v ∈ rs, rs.count v < q) → quorumAggregate q rs = none) ∧
    quorumAggregate 2 [10, 10, 7] = some 10 ∧
    quorumAggregate 2 [10, 7, 3] = none ∧
    (∀ (q : ℕ) (rs : List ℤ) (v : ℤ),
        1 < q → rs.count v = 1 → quorumAggregate q rs ≠ some v) := by
  have hag : ∀ (q : ℕ) (rs : List ℤ) (v : ℤ),
      quorumAggregate q rs = some v → q ≤ rs.count v := by
    intro q rs v h
    have := List.find?_some h
    exact of_decide_eq_true this
  refine ⟨hag, ?_, by decide, by decide, ?_⟩
  · intro q rs h
    apply List.find?_eq_none.2
    intro v hv
    simp only [decide_eq_true_eq, not_le]
    exact h v hv
  · intro q rs v hq hc h
    have := hag q rs v h
    omega

/-- Witness for C2 at a concrete input: instantiating the agreement direction
at Q=2 and responses [10, 10, 7]. -/
theorem quorum_balance_read_semantics_witness :
    2 ≤ ([10, 10, 7] : List ℤ).count 10 :=
  quorum_balance_read_semantics.1 2 [10, 10, 7] 10 (by decide)

/-! ### C5: InsufficientFunds before any submission -/

/-- Claim C5: when transferEth is called (with a signer configured) for an
amount exceeding the balance the provider reports, it fails with the
insufficient-funds error and the only remote call it has issued is the balance
read: no fee fetch, no signing and no submission happened. -/
theorem transferEth_insufficient_no_submission (addr recipient : String)
    (net : Network) (amountETH b : ℚ) (hb : net.balanceResult = some b)
    (hlt : b < amountETH) :
    (transferEth (some addr) net amountETH recipient).1 =
      Except.error TransferError.insufficientFunds ∧
    (transferEth (some addr) net amountETH recipient).2 = [NetCall.getBalance] := by
  simp [transferEth, hb, hlt]

/-- Witness for C5: asking to move 6 ETH while the endpoints report 5. -/
theorem transferEth_insufficient_no_submission_witness :
    (transferEth (some TREASURY_WALLET_ADDRESS) netGood 6 COINBASE_WALLET).1 =
      Except.error TransferError.insufficientFunds ∧
    (transferEth (some TREASURY_WALLET_ADDRESS) netGood 6 COINBASE_WALLET).2 =
      [NetCall.getBalance] :=
  transferEth_insufficient_no_submission TREASURY_WALLET_ADDRESS COINBASE_WALLET
    netGood 6 5 rfl (by norm_num)

end Server

namespace Server

/-! ### Helper lemmas about getTreasuryBalance -/

/-- When provider and signer are both set, getTreasuryBalance leaves the state
alone and returns the provider response, with 0 for a throwing read. -/
theorem getTreasuryBalance_ready (cfg : Config) (net : Network) (s : EngineState)
    (addr : String) (hp : s.provider = true) (hs : s.signer = some addr) :
    getTreasuryBalance cfg net s = (net.balanceResult.getD 0, s) := by
  cases hb : net.balanceResult <;>
    simp [getTreasuryBalance, hp, hs, hb]

/-- initProvider never touches the counters, the stored outcome or the
strategies array. -/
theorem initProvider_frame (cfg : Config) (net : Network) (s : EngineState) :
    (initProvider cfg net s).2.strategies = s.strategies ∧
    (initProvider cfg net s).2.lastExecutionResult = s.lastExecutionResult ∧
    (initProvider cfg net s).2.totalStrategiesExecuted = s.totalStrategiesExecuted ∧
    (initProvider cfg net s).2.totalRealizedToTreasury = s.totalRealizedToTreasury := by
  cases hc : net.connectOk <;> cases hk : cfg.privateKeyAddress <;>
    simp [initProvider, hc, hk]

/-- getTreasuryBalance never touches the counters, the stored outcome or the
strategies array. -/
theorem getTreasuryBalance_frame (cfg : Config) (net : Network) (s : EngineState) :
    (getTreasuryBalance cfg net s).2.strategies = s.strategies ∧
    (getTreasuryBalance cfg net s).2.lastExecutionResult = s.lastExecutionResult ∧
    (getTreasuryBalance cfg net s).2.totalStrategiesExecuted = s.totalStrategiesExecuted ∧
    (getTreasuryBalance cfg net s).2.totalRealizedToTreasury = s.totalRealizedToTreasury := by
  have hI := initProvider_frame cfg net s
  by_cases hcond : (!s.provider || s.signer.isNone) = true <;>
    cases hb : net.balanceResult <;>
      cases hsg : (if !s.provider || s.signer.isNone then (initProvider cfg net s).2 else s).signer <;>
        simp_all [getTreasuryBalance, hcond, hb, hsg]

/-! ### C6: needs-funding abort -/

/-- Below-minimum ticks abort with the needs-funding payload and change
nothing (shared helper). -/
theorem tick_below_min_aborts (cfg : Config) (net : Network) (now : ℕ)
    (s : EngineState) (addr : String) (b : ℚ)
    (hp : s.provider = true) (hs : s.signer = some addr)
    (hb : net.balanceResult = some b) (hlow : b < MIN_GAS_ETH) :
    executeStrategyTrade cfg net now s =
      { outcome := Outcome.needsFunding b MIN_GAS_ETH, state := s,
        transferCalls := [], signalsRead := [] } := by
  have hgb := getTreasuryBalance_ready cfg net s addr hp hs
  rw [hb] at hgb
  simp [executeStrategyTrade, hgb, hs, hlow]

/-- Claim C6: with a signer configured, a tick whose observed balance is below
MIN_GAS_ETH returns the needs-funding outcome carrying the observed balance
and the threshold, attempts no transfer, reads no signals, and leaves the
whole engine state — in particular both counters — unchanged. -/
theorem tick_needs_funding (cfg : Config) (net : Network) (now : ℕ)
    (s : EngineState) (addr : String) (b : ℚ)
    (hp : s.provider = true) (hs : s.signer = some addr)
    (hb : net.balanceResult = some b) (hlow : b < MIN_GAS_ETH) :
    executeStrategyTrade cfg net now s =
      { outcome := Outcome.needsFunding b MIN_GAS_ETH, state := s,
        transferCalls := [], signalsRead := [] } :=
  tick_below_min_aborts cfg net now s addr b hp hs hb hlow

/-- Witness for C6: balance 0.005 against threshold 0.01 aborts the tick. -/
theorem tick_needs_funding_witness :
    executeStrategyTrade cfgWithKey { netGood with balanceResult := some (5 / 1000) } 7 sReady =
      { outcome := Outcome.needsFunding (5 / 1000) MIN_GAS_ETH, state := sReady,
        transferCalls := [], signalsRead := [] } :=
  tick_needs_funding cfgWithKey { netGood with balanceResult := some (5 / 1000) } 7 sReady
    TREASURY_WALLET_ADDRESS (5 / 1000) rfl rfl rfl (by norm_num [MIN_GAS_ETH])

/-! ### C4: exactly one fixed-amount self-transfer -/

/-- Claim C4: with a signer configured, balance at least the minimum, and at
least one positive signal in the batch, the tick attempts exactly one
transfer, of the fixed tick-level constant AGGREGATE_PROFIT_ETH, with the
signer address itself as recipient — independently of how many signals were
positive. -/
theorem tick_transfers_exactly_one (cfg : Config) (net : Network) (now : ℕ)
    (s : EngineState) (addr : String) (b : ℚ)
    (hp : s.provider = true) (hs : s.signer = some addr)
    (hb : net.balanceResult = some b) (hmin : MIN_GAS_ETH ≤ b)
    (hpos : ((s.strategies.take STRATEGIES_PER_EXECUTION).map Strategy.profitCheck).count true ≠ 0) :
    (executeStrategyTrade cfg net now s).transferCalls = [(AGGREGATE_PROFIT_ETH, addr)] := by
  have hgb := getTreasuryBalance_ready cfg net s addr hp hs
  rw [hb] at hgb
  have hnl : ¬ b < MIN_GAS_ETH := not_lt.2 hmin
  have hpos2 : ((s.strategies.map Strategy.profitCheck).take STRATEGIES_PER_EXECUTION).count true ≠ 0 := by
    rwa [← List.map_take]
  cases hres : (transferEth (some addr) net AGGREGATE_PROFIT_ETH addr).1 <;>
    simp [executeStrategyTrade, hgb, hs, hnl, hpos2, hres]

/-- The startup batch in which every draw succeeded is 450 positive signals. -/
theorem stratAllTrue_signals :
    stratAllTrue.map Strategy.profitCheck = List.replicate 450 true := by
  rw [List.eq_replicate_iff]
  constructor
  · rw [stratAllTrue, mkStrategies, List.length_map, List.length_map, List.length_range]
  · intro b hb
    rw [stratAllTrue, mkStrategies, List.map_map, List.mem_map] at hb
    obtain ⟨i, _, rfl⟩ := hb
    rfl

theorem stratAllTrue_length : stratAllTrue.length = 450 := by
  rw [stratAllTrue, mkStrategies, List.length_map, List.length_range]

theorem sReady_signals_positive :
    ((sReady.strategies.take STRATEGIES_PER_EXECUTION).map Strategy.profitCheck).count true ≠ 0 := by
  have hst : sReady.strategies = stratAllTrue := rfl
  have ht : sReady.strategies.take STRATEGIES_PER_EXECUTION = stratAllTrue := by
    rw [hst]
    exact List.take_of_length_le (by rw [stratAllTrue_length]; exact Nat.le_refl _)
  rw [ht, stratAllTrue_signals, List.count_replicate_self]
  omega

/-- Witness for C4: a funded treasury and a batch in which every signal is
positive yields the single fixed transfer to the treasury address. -/
theorem tick_transfers_exactly_one_witness :
    (executeStrategyTrade cfgWithKey netGood 7 sReady).transferCalls =
      [(AGGREGATE_PROFIT_ETH, TREASURY_WALLET_ADDRESS)] :=
  tick_transfers_exactly_one cfgWithKey netGood 7 sReady
    TREASURY_WALLET_ADDRESS 5 rfl rfl rfl (by norm_num [MIN_GAS_ETH])
    sReady_signals_positive

end Server

namespace Server

/-! ### A shared description of ticks that reach the transfer step -/

/-- On a tick with provider and signer set, a quorum-read balance at least the
minimum and at least one positive signal, the tick calls transferEth and: the
finally block replaces lastExecutionResult with the nesting of its previous
value under the fresh timestamp (whatever the transfer outcome was); the
outcome mirrors the transferEth result; the signals read are the profitCheck
fields of the stored strategies; and provider, signer and strategies are left
as they were. -/
theorem tick_trade_path (cfg : Config) (net : Network) (now : ℕ)
    (s : EngineState) (addr : String) (b : ℚ)
    (hp : s.provider = true) (hs : s.signer = some addr)
    (hb : net.balanceResult = some b) (hmin : MIN_GAS_ETH ≤ b)
    (hpos : ((s.strategies.take STRATEGIES_PER_EXECUTION).map Strategy.profitCheck).count true ≠ 0) :
    (executeStrategyTrade cfg net now s).state.lastExecutionResult =
      now :: s.lastExecutionResult ∧
    (executeStrategyTrade cfg net now s).outcome =
      (match (transferEth (some addr) net AGGREGATE_PROFIT_ETH addr).1 with
       | Except.ok txo => Outcome.tradeSuccess STRATEGIES_PER_EXECUTION
           (((s.strategies.take STRATEGIES_PER_EXECUTION).map Strategy.profitCheck).count true)
           AGGREGATE_PROFIT_USD AGGREGATE_PROFIT_ETH addr txo.txHash txo.blockNumber
       | Except.error e => Outcome.tradeFailed e AGGREGATE_PROFIT_ETH) ∧
    (executeStrategyTrade cfg net now s).signalsRead =
      (s.strategies.take STRATEGIES_PER_EXECUTION).map Strategy.profitCheck ∧
    (executeStrategyTrade cfg net now s).state.provider = s.provider ∧
    (executeStrategyTrade cfg net now s).state.signer = s.signer ∧
    (executeStrategyTrade cfg net now s).state.strategies = s.strategies := by
  have hgb := getTreasuryBalance_ready cfg net s addr hp hs
  rw [hb] at hgb
  have hnl : ¬ b < MIN_GAS_ETH := not_lt.2 hmin
  have hpos2 : ((s.strategies.map Strategy.profitCheck).take STRATEGIES_PER_EXECUTION).count true ≠ 0 := by
    rwa [← List.map_take]
  cases hres : (transferEth (some addr) net AGGREGATE_PROFIT_ETH addr).1 <;>
    refine ⟨?_, ?_, ?_, ?_, ?_, ?_⟩ <;>
      simp [executeStrategyTrade, hgb, hs, hnl, hpos2, hres, List.map_take]

end Server

namespace Server

theorem sReady_take :
    sReady.strategies.take STRATEGIES_PER_EXECUTION = stratAllTrue := by
  have h : sReady.strategies = stratAllTrue := rfl
  rw [h]
  exact List.take_of_length_le (by rw [stratAllTrue_length]; exact Nat.le_refl _)

/-! ### C3: the stored Last Execution Outcome -/

/-- Claim C3 (code bug): after a tick completes, the stored
lastExecutionResult does NOT equal the result of the attempt that just
finished. The finally block stores an object nesting the PREVIOUS value of
the global under the result field next to the timestamp; the outcome the tick
just produced is discarded. Concretely: a succeeding tick and a failing tick
(submission rejected) produce different outcomes but the very same stored
value, that value is just the nested previous value with the timestamp, and a
tick aborting before the transfer (needs funding) does not overwrite the
stored value at all. -/
theorem lastResult_ignores_tick_outcome :
    (executeStrategyTrade cfgWithKey netGood 1000 sReady).outcome ≠
      (executeStrategyTrade cfgWithKey netSendFail 1000 sReady).outcome ∧
    (executeStrategyTrade cfgWithKey netGood 1000 sReady).state.lastExecutionResult =
      (executeStrategyTrade cfgWithKey netSendFail 1000 sReady).state.lastExecutionResult ∧
    (executeStrategyTrade cfgWithKey netGood 1000 sReady).state.lastExecutionResult = [1000] ∧
    (executeStrategyTrade cfgWithKey { netGood with balanceResult := some (5 / 1000) } 1000
        sReady).state.lastExecutionResult = sReady.lastExecutionResult := by
  have h1 := tick_trade_path cfgWithKey netGood 1000 sReady TREASURY_WALLET_ADDRESS 5
    rfl rfl rfl (by norm_num [MIN_GAS_ETH]) sReady_signals_positive
  have h2 := tick_trade_path cfgWithKey netSendFail 1000 sReady TREASURY_WALLET_ADDRESS 5
    rfl rfl rfl (by norm_num [MIN_GAS_ETH]) sReady_signals_positive
  have e1 : (transferEth (some TREASURY_WALLET_ADDRESS) netGood AGGREGATE_PROFIT_ETH
      TREASURY_WALLET_ADDRESS).1 = Except.ok { txHash := 77, blockNumber := 123 } := rfl
  have e2 : (transferEth (some TREASURY_WALLET_ADDRESS) netSendFail AGGREGATE_PROFIT_ETH
      TREASURY_WALLET_ADDRESS).1 = Except.error TransferError.providerFailure := rfl
  refine ⟨?_, ?_, ?_, ?_⟩
  · rw [h1.2.1, h2.2.1, e1, e2]
    intro h
    exact Outcome.noConfusion h
  · rw [h1.1, h2.1]
  · rw [h1.1, show sReady.lastExecutionResult = [] from rfl]
  · have h3 := tick_below_min_aborts cfgWithKey
      { netGood with balanceResult := some (5 / 1000) } 1000 sReady
      TREASURY_WALLET_ADDRESS (5 / 1000) rfl rfl rfl (by norm_num [MIN_GAS_ETH])
    rw [h3]

/-! ### C7: the Signal Batch across ticks -/

/-- Claim C7 (counterexample): the Signal Batch is NOT produced fresh per tick
and IS persisted across ticks: the batch a tick consumes is the map of the
profitCheck fields of the strategies stored in the state, a second tick
started from the state the first one returned consumes exactly the same
batch, and the tick leaves the stored batch in place. -/
theorem signal_batch_persists_across_ticks :
    (executeStrategyTrade cfgWithKey netGood 1 sReady).signalsRead =
      stratAllTrue.map Strategy.profitCheck ∧
    (executeStrategyTrade cfgWithKey netGood 2
        (executeStrategyTrade cfgWithKey netGood 1 sReady).state).signalsRead =
      (executeStrategyTrade cfgWithKey netGood 1 sReady).signalsRead ∧
    (executeStrategyTrade cfgWithKey netGood 1 sReady).state.strategies =
      sReady.strategies := by
  have h1 := tick_trade_path cfgWithKey netGood 1 sReady TREASURY_WALLET_ADDRESS 5
    rfl rfl rfl (by norm_num [MIN_GAS_ETH]) sReady_signals_positive
  have hstr : (executeStrategyTrade cfgWithKey netGood 1 sReady).state.strategies =
      sReady.strategies := h1.2.2.2.2.2
  have hp1 : (executeStrategyTrade cfgWithKey netGood 1 sReady).state.provider = true := by
    rw [h1.2.2.2.1]
    rfl
  have hs1 : (executeStrategyTrade cfgWithKey netGood 1 sReady).state.signer =
      some TREASURY_WALLET_ADDRESS := by
    rw [h1.2.2.2.2.1]
    rfl
  have hpos1 : (((executeStrategyTrade cfgWithKey netGood 1 sReady).state.strategies.take
      STRATEGIES_PER_EXECUTION).map Strategy.profitCheck).count true ≠ 0 := by
    rw [hstr]
    exact sReady_signals_positive
  have h2 := tick_trade_path cfgWithKey netGood 2
    (executeStrategyTrade cfgWithKey netGood 1 sReady).state TREASURY_WALLET_ADDRESS 5
    hp1 hs1 rfl (by norm_num [MIN_GAS_ETH]) hpos1
  refine ⟨?_, ?_, hstr⟩
  · rw [h1.2.2.1, sReady_take]
  · rw [h2.2.2.1, h1.2.2.1, hstr]

/-- Claim C7 (amended): the batch consumed by a tick is read from the
strategies stored in the engine state — the global STRATEGIES array built once
at module load — and the tick stores it back unchanged: signals persist for
the process lifetime instead of being drawn fresh per tick. -/
theorem tick_signal_batch_from_global (cfg : Config) (net : Network) (now : ℕ)
    (s : EngineState) :
    (executeStrategyTrade cfg net now s).state.strategies = s.strategies ∧
    ((executeStrategyTrade cfg net now s).signalsRead = [] ∨
     (executeStrategyTrade cfg net now s).signalsRead =
       (s.strategies.take STRATEGIES_PER_EXECUTION).map Strategy.profitCheck) := by
  have hfr := (getTreasuryBalance_frame cfg net s).1
  simp only [executeStrategyTrade]
  split
  · exact ⟨hfr, Or.inl rfl⟩
  · split
    · exact ⟨hfr, Or.inl rfl⟩
    · split
      · exact ⟨hfr, Or.inr (by rw [hfr])⟩
      · split
        · exact ⟨hfr, Or.inr (by rw [hfr])⟩
        · exact ⟨hfr, Or.inr (by rw [hfr])⟩

end Server

namespace Server

/-! ### C8: timeouts on network operations -/

/-- Claim C8 (counterexample): the confirmation wait does not carry a bounded
timeout. On a concrete successful transfer the issued trace contains a
confirmation wait with no timeout bound, so it is false that every wait in the
trace carries one. -/
theorem confirmation_wait_without_timeout :
    ((transferEth (some TREASURY_WALLET_ADDRESS) netGood 1 TREASURY_WALLET_ADDRESS).2.all
      fun c => match c with
        | NetCall.waitReceipt t => t.isSome
        | _ => true) = false ∧
    NetCall.waitReceipt none ∈
      (transferEth (some TREASURY_WALLET_ADDRESS) netGood 1 TREASURY_WALLET_ADDRESS).2 := by
  constructor <;> decide

/-- Claim C8 (amended): every confirmation wait the transfer path ever issues
carries NO timeout — the receipt wait is invoked with no bound, so a
non-responsive confirmation is an indefinite suspension, and no
confirmation-timeout failure exists in the code. -/
theorem transferEth_wait_unbounded (sg : Option String) (net : Network)
    (amountETH : ℚ) (recipient : String) :
    ∀ c ∈ (transferEth sg net amountETH recipient).2,
      ∀ t, c = NetCall.waitReceipt t → t = none := by
  intro c hc t hct
  subst hct
  cases sg with
  | none => simp [transferEth] at hc
  | some a =>
    cases hb : net.balanceResult with
    | none => simp [transferEth, hb] at hc
    | some bal =>
      by_cases hlt : bal < amountETH
      · simp [transferEth, hb, hlt] at hc
      · cases hf : net.feeResult with
        | none => simp [transferEth, hb, hlt, hf] at hc
        | some fd =>
          cases hsnd : net.sendResult with
          | none => simp [transferEth, hb, hlt, hf, hsnd] at hc
          | some h =>
            cases hw : net.waitResult with
            | none =>
              simp [transferEth, hb, hlt, hf, hsnd, hw] at hc
              exact hc
            | some bn =>
              simp [transferEth, hb, hlt, hf, hsnd, hw] at hc
              exact hc

/-- Witness for C8 (amended): instantiating at the concrete trace element. -/
theorem transferEth_wait_unbounded_witness : (none : Option ℕ) = none :=
  transferEth_wait_unbounded (some TREASURY_WALLET_ADDRESS) netGood 1
    TREASURY_WALLET_ADDRESS (NetCall.waitReceipt none) (by decide) none rfl

/-! ### C9: the status snapshot read -/

/-- Claim C9 (counterexample): reading the status snapshot is NOT free of side
effects: on a state where the provider is unset, the handler re-runs
initProvider, changing the connection state and the provider. -/
theorem status_read_mutates_state :
    (statusRead cfgNoKey netGood 0 sFresh).2.monitorStatus ≠ sFresh.monitorStatus ∧
    (statusRead cfgNoKey netGood 0 sFresh).2.provider ≠ sFresh.provider := by
  constructor <;> decide

/-- Claim C9 (amended): a status read never changes the counters or the stored
last outcome, and when the provider and the signer are both already set it
leaves the whole state unchanged; but when either is unset it re-runs provider
initialization, so connection state, provider and signer may change. -/
theorem status_read_frame (cfg : Config) (net : Network) (now : ℕ)
    (s : EngineState) :
    (statusRead cfg net now s).2.totalStrategiesExecuted = s.totalStrategiesExecuted ∧
    (statusRead cfg net now s).2.totalRealizedToTreasury = s.totalRealizedToTreasury ∧
    (statusRead cfg net now s).2.lastExecutionResult = s.lastExecutionResult ∧
    (∀ addr, s.provider = true → s.signer = some addr → (statusRead cfg net now s).2 = s) := by
  have hf := getTreasuryBalance_frame cfg net s
  refine ⟨hf.2.2.1, hf.2.2.2, hf.2.1, ?_⟩
  intro addr hp hs
  show (getTreasuryBalance cfg net s).2 = s
  rw [getTreasuryBalance_ready cfg net s addr hp hs]

/-- Witness for C9 (amended): on a connected state with a signer, the status
read returns the state unchanged. -/
theorem status_read_frame_witness : (statusRead cfgWithKey netGood 3 sReady).2 = sReady :=
  (status_read_frame cfgWithKey netGood 3 sReady).2.2.2 TREASURY_WALLET_ADDRESS rfl rfl

/-! ### C10: totality of the balance helper -/

/-- Claim C10: the balance helper never fails: with no credential configured
it returns 0, with a throwing provider read it returns 0, and at the tick
level a failing read (with a signer present) is indistinguishable from a zero
balance — the tick reports needs-funding with observed balance 0. -/
theorem getTreasuryBalance_never_fails (cfg : Config) (net : Network)
    (s : EngineState) (now : ℕ) (addr : String) :
    (cfg.privateKeyAddress = none → s.signer = none →
      (getTreasuryBalance cfg net s).1 = 0) ∧
    (net.balanceResult = none → (getTreasuryBalance cfg net s).1 = 0) ∧
    (s.provider = true → s.signer = some addr → net.balanceResult = none →
      (executeStrategyTrade cfg net now s).outcome = Outcome.needsFunding 0 MIN_GAS_ETH) := by
  refine ⟨?_, ?_, ?_⟩
  · intro hk hsg
    have hcond : (!s.provider || s.signer.isNone) = true := by
      rw [hsg]
      simp
    cases hc : net.connectOk
    · simp [getTreasuryBalance, hcond, initProvider, hc]
    · simp [getTreasuryBalance, hcond, initProvider, hc, hk, hsg]
  · intro hb
    simp only [getTreasuryBalance, hb]
    cases hsig : (if !s.provider || s.signer.isNone then (initProvider cfg net s).2
        else s).signer <;>
      rfl
  · intro hp hs hb
    have hgb := getTreasuryBalance_ready cfg net s addr hp hs
    rw [hb] at hgb
    have h0 : (0 : ℚ) < MIN_GAS_ETH := by norm_num [MIN_GAS_ETH]
    simp [executeStrategyTrade, hgb, hs, h0]

/-- Witness for C10: a throwing balance read on a signed, connected state
reports needs-funding with observed balance 0. -/
theorem getTreasuryBalance_never_fails_witness :
    (executeStrategyTrade cfgWithKey netReadFail 0 sReady).outcome =
      Outcome.needsFunding 0 MIN_GAS_ETH :=
  (getTreasuryBalance_never_fails cfgWithKey netReadFail sReady 0
    TREASURY_WALLET_ADDRESS).2.2 rfl rfl rfl

end Server
